import Mathlib

/-!
# Verification of `tolkam/lib-in-view`

A shallow embedding of the visibility-tracking library:
`Context` (scrolling parent wrapper, `src/Context.ts`),
`Subject` (tracked element wrapper, `src/Subject.ts`) and the
`InView` orchestrator (`src/index.ts`).

Geometry values (bounding-box edges, scroll offsets, client dimensions)
are modelled as rationals `ℚ`; `Math.floor` is `Rat.floor`.  A JavaScript
number that may be `NaN` (the result of a failed `parseInt`) is modelled
as `Option ℚ` with `none` for `NaN`; comparison helpers reproduce the
JS semantics where every comparison against `NaN` is `false`.
-/

namespace InViewLib

/-! ## Direction constants (`Context.ts`, lines 1-5) -/

def DIR_NONE : Nat := 0
def DIR_UP : Nat := 1
def DIR_DOWN : Nat := 2
def DIR_LEFT : Nat := 3
def DIR_RIGHT : Nat := 4

/-! ## Context scroll snapshot -/

/-- The `scroll` record of `Context` (`Context.ts`, lines 38-45). -/
structure ScrollData where
  top : ℚ
  left : ℚ
  topDiff : ℚ
  leftDiff : ℚ
  dirY : Nat
  dirX : Nat
deriving Repr, DecidableEq

/-- Initial value of the `scroll` record (`Context.ts`, lines 38-45). -/
def initialScroll : ScrollData :=
  { top := 0, left := 0, topDiff := 0, leftDiff := 0, dirY := DIR_NONE, dirX := DIR_NONE }

/-- `Context.populateScroll` (`Context.ts`, lines 223-240): given the previous
snapshot and the element's current `scrollTop`/`scrollLeft`, computes the new
snapshot (diffs and directions against the previous stored position). -/
def populateScroll (scroll : ScrollData) (scrollTop scrollLeft : ℚ) : ScrollData :=
  { top := scrollTop
    left := scrollLeft
    topDiff := scrollTop - scroll.top
    leftDiff := scrollLeft - scroll.left
    dirY := if scrollTop = scroll.top then DIR_NONE
            else if scrollTop > scroll.top then DIR_DOWN else DIR_UP
    dirX := if scrollLeft = scroll.left then DIR_NONE
            else if scrollLeft > scroll.left then DIR_RIGHT else DIR_LEFT }

/-! ## Context state and accessors -/

/-- State of a `Context` instance: whether the wrapped node is a document,
its bounding-rect `top`/`left`, its client dimensions, and the scroll
snapshot.  The geometry fields stand for the values the host environment
returns for the wrapped element. -/
structure ContextState where
  isDoc : Bool
  rectTop : ℚ
  rectLeft : ℚ
  clientHeight : ℚ
  clientWidth : ℚ
  scroll : ScrollData
deriving Repr, DecidableEq

/-- `Context.top()` (`Context.ts`, lines 72-74). -/
def ContextState.top (c : ContextState) : ℚ :=
  if c.isDoc then 0 else c.rectTop

/-- `Context.left()` (`Context.ts`, lines 81-83). -/
def ContextState.left (c : ContextState) : ℚ :=
  if c.isDoc then 0 else c.rectLeft

/-- `Context.scrollTopDiff()` (`Context.ts`, lines 108-110). -/
def ContextState.scrollTopDiff (c : ContextState) : ℚ := c.scroll.topDiff

/-- `Context.scrollLeftDiff()` (`Context.ts`, lines 117-119). -/
def ContextState.scrollLeftDiff (c : ContextState) : ℚ := c.scroll.leftDiff

/-- `Context.innerHeight()` (`Context.ts`, lines 126-128). -/
def ContextState.innerHeight (c : ContextState) : ℚ := c.clientHeight

/-- `Context.innerWidth()` (`Context.ts`, lines 135-137). -/
def ContextState.innerWidth (c : ContextState) : ℚ := c.clientWidth

/-! ## Subject -/

/-- Geometry the host returns for the subject element: bounding-box edges
and dimensions (`Subject.ts`). -/
structure SubjectGeom where
  top : ℚ
  left : ℚ
  right : ℚ
  bottom : ℚ
  height : ℚ
  width : ℚ
deriving Repr, DecidableEq

/-- One of the four box edges (the `position` argument of
`getSubjectPosition`, `src/index.ts` line 136). -/
inductive TPosition where
  | top
  | left
  | right
  | bottom
deriving Repr, DecidableEq

/-- `subject[position]()` — dispatch to `Subject.top/left/right/bottom`
(`Subject.ts`, lines 250-279). -/
def SubjectGeom.edge (s : SubjectGeom) : TPosition → ℚ
  | .top => s.top
  | .left => s.left
  | .right => s.right
  | .bottom => s.bottom

/-! ## Options -/

/-- `TOffset = number | string | ((subject, context) => number)`
(`src/index.ts`, line 218). -/
inductive TOffset where
  | num (value : ℚ)
  | str (value : String)
  | fn (value : SubjectGeom → ContextState → ℚ)

/-- `IOffset` (`src/index.ts`, lines 220-225). -/
structure IOffset where
  top : Option TOffset
  left : Option TOffset
  right : Option TOffset
  bottom : Option TOffset

/-- The empty offset object `{}` (the default for `options.offset`). -/
def emptyOffset : IOffset := ⟨none, none, none, none⟩

/-- `offset[position]` lookup. -/
def IOffset.get (o : IOffset) : TPosition → Option TOffset
  | .top => o.top
  | .left => o.left
  | .right => o.right
  | .bottom => o.bottom

/-- `IScrollAmount` (`src/index.ts`, lines 227-230); both fields optional. -/
structure IScrollAmount where
  top : Option ℚ
  left : Option ℚ
deriving Repr, DecidableEq

/-- `TPercentageMode = 'parent' | 'self'` (`src/index.ts`, line 214). -/
inductive TPercentageMode where
  | parent
  | self
deriving Repr, DecidableEq

/-- Options after the constructor merged in the defaults
(`src/index.ts`, lines 45-50).  `context` is represented by the
`ContextGeomIn` argument of `construct` rather than stored here. -/
structure Options where
  windowEvents : List String
  offset : IOffset
  offsetPercentageMode : TPercentageMode
  scrollAmount : Option IScrollAmount

/-- The user-supplied `IOptions` bag (`src/index.ts`, lines 186-202):
every field optional. -/
structure IOptionsIn where
  windowEvents : Option (List String)
  offset : Option IOffset
  offsetPercentageMode : Option TPercentageMode
  scrollAmount : Option IScrollAmount

/-- The default-merge performed by the constructor
(`src/index.ts`, lines 45-50). -/
def mergeDefaults (o : IOptionsIn) : Options :=
  { windowEvents := o.windowEvents.getD ["DOMContentLoaded", "resize"]
    offset := o.offset.getD emptyOffset
    offsetPercentageMode := o.offsetPercentageMode.getD .parent
    scrollAmount := o.scrollAmount }

/-! ## JS string and number helpers -/

/-- Numeric value of a list of decimal digit characters. -/
def digitsToNat (cs : List Char) : Nat :=
  cs.foldl (fun a c => a * 10 + (c.toNat - 48)) 0

/-- JavaScript `parseInt(s, 10)`: skip leading spaces, optional sign,
take the leading decimal digits; `none` models `NaN` (no digits). -/
def parseIntJS (s : String) : Option Int :=
  let core : List Char → Int → Option Int := fun l sgn =>
    let ds := l.takeWhile Char.isDigit
    if ds.isEmpty then none else some (sgn * (digitsToNat ds : Int))
  match s.data.dropWhile (fun c => c = ' ') with
  | '-' :: rest => core rest (-1)
  | '+' :: rest => core rest 1
  | cs => core cs 1

/-- Index of the last occurrence of `c` when searching a reversed list:
`some i` means the last occurrence, counted from the end. -/
def revFindIdx (c : Char) : List Char → Option Nat
  | [] => none
  | x :: xs => if x = c then some 0 else (revFindIdx c xs).map (fun i => i + 1)

/-- JavaScript `s.lastIndexOf(c)`: the greatest index holding `c`,
or `-1` when absent. -/
def jsLastIndexOf (s : String) (c : Char) : Int :=
  match revFindIdx c s.data.reverse with
  | some i => (s.length : Int) - 1 - (i : Int)
  | none => -1

/-- `Math.floor`, kept as a rational. -/
def qfloor (q : ℚ) : ℚ := (Rat.floor q : ℚ)

/-- `Math.abs`. -/
def qabs (q : ℚ) : ℚ := if q < 0 then -q else q

/-! ### JS comparisons against a possibly-`NaN` number

In JavaScript every ordering comparison involving `NaN` is `false`;
`none` models `NaN` below. -/

/-- `a >= b` with a possibly-`NaN` left operand. -/
def cmpGE (a : Option ℚ) (b : ℚ) : Bool :=
  match a with
  | some x => decide (x ≥ b)
  | none => false

/-- `a <= b` with a possibly-`NaN` left operand. -/
def cmpLE (a : Option ℚ) (b : ℚ) : Bool :=
  match a with
  | some x => decide (x ≤ b)
  | none => false

/-- `a < b` with a possibly-`NaN` left operand. -/
def cmpLT (a : Option ℚ) (b : ℚ) : Bool :=
  match a with
  | some x => decide (x < b)
  | none => false

/-- `a <= b` with a possibly-`undefined` right operand
(`x <= undefined` is `false` in JS). -/
def cmpLEOpt (a : ℚ) (b : Option ℚ) : Bool :=
  match b with
  | some y => decide (a ≤ y)
  | none => false

/-! ## getSubjectPosition -/

/-- `InView.getSubjectPosition` (`src/index.ts`, lines 136-166).

The JS guard `if (!positionOffset) return result;` fires for a missing
offset, the number `0` and the empty string (all falsy) and returns the
raw value without flooring; every other branch ends with
`Math.floor(result)`.  A percentage string whose `parseInt` is `NaN`
yields `NaN` (`none`). -/
def getSubjectPosition (opts : Options) (subject : SubjectGeom)
    (context : ContextState) (position : TPosition) : Option ℚ :=
  let value := subject.edge position
  let sign : ℚ := if position = .top ∨ position = .left then 1 else -1
  match opts.offset.get position with
  | none => some value
  | some (.num n) =>
      if n = 0 then some value
      else some (qfloor (value + n * sign))
  | some (.fn f) => some (qfloor (value + f subject context * sign))
  | some (.str s) =>
      if s = "" then some value
      else
        let dimIsHeight := position = .top ∨ position = .bottom
        let dimension : ℚ :=
          if opts.offsetPercentageMode = .parent then
            (if dimIsHeight then context.innerHeight else context.innerWidth)
          else
            (if dimIsHeight then subject.height else subject.width)
        match parseIntJS s with
        | some p => some (qfloor (value + dimension / 100 * ((p : ℚ) * sign)))
        | none => none

/-! ## eventsHandler -/

/-- `IVisibility` (`src/index.ts`, lines 204-210). -/
structure IVisibility where
  visible : Bool
  topLeft : Bool
  topRight : Bool
  bottomLeft : Bool
  bottomRight : Bool
deriving Repr, DecidableEq

/-- `InView.eventsHandler` (`src/index.ts`, lines 82-128).  Returns
`none` when the noise gate aborts the evaluation (callback not invoked),
`some v` when the callback is invoked exactly once with `v`. -/
def eventsHandler (opts : Options) (context : ContextState)
    (subject : SubjectGeom) : Option IVisibility :=
  let scrollAmount := opts.scrollAmount.getD { top := some 0, left := some 0 }
  let scrollTopDiff := qabs context.scrollTopDiff
  let scrollLeftDiff := qabs context.scrollLeftDiff
  if (decide (scrollTopDiff > 0) && cmpLEOpt scrollTopDiff scrollAmount.top)
      || (decide (scrollLeftDiff > 0) && cmpLEOpt scrollLeftDiff scrollAmount.left) then
    none
  else
    let parentHeight := context.innerHeight
    let parentWidth := context.innerWidth
    let parentTop := context.top
    let parentLeft := context.left
    let parentBottom := parentTop + parentHeight
    let parentRight := parentLeft + parentWidth
    let childTop := getSubjectPosition opts subject context .top
    let childLeft := getSubjectPosition opts subject context .left
    let childBottom := getSubjectPosition opts subject context .bottom
    let childRight := getSubjectPosition opts subject context .right
    let topVisible := cmpGE childTop parentTop && cmpLT childTop parentBottom
    let bottomVisible := cmpLT childBottom parentBottom && cmpGE childBottom parentTop
    let leftVisible := cmpGE childLeft parentLeft && cmpLT childLeft parentRight
    let rightVisible := cmpLE childRight parentRight && cmpGE childRight parentLeft
    let overflowY := cmpLE childTop parentTop && cmpGE childBottom parentBottom
    let overflowX := cmpLE childLeft parentLeft && cmpGE childRight parentRight
    some
      { visible := (topVisible || bottomVisible || overflowY)
          && (leftVisible || rightVisible || overflowX)
        topLeft := topVisible && leftVisible
        topRight := topVisible && rightVisible
        bottomLeft := bottomVisible && leftVisible
        bottomRight := bottomVisible && rightVisible }

/-! ## validateOptions and construction -/

/-- The `TypeError` message thrown by `validateOptions`
(`src/index.ts`, line 180). -/
def offsetErrorMessage : String :=
  "String offset value must be percentage, e.g. 50%"

/-- The per-entry check of `validateOptions` (`src/index.ts`, line 179):
a string entry fails when `v.lastIndexOf('%') !== v.length - 1`. -/
def invalidStringEntry : Option TOffset → Bool
  | some (.str s) => decide (jsLastIndexOf s '%' ≠ (s.length : Int) - 1)
  | _ => false

/-- `InView.validateOptions` (`src/index.ts`, lines 173-183): throws a
`TypeError` when any offset entry is a string failing the percentage
check. -/
def validateOptions (opts : Options) : Except String Unit :=
  if invalidStringEntry opts.offset.top || invalidStringEntry opts.offset.left
      || invalidStringEntry opts.offset.right || invalidStringEntry opts.offset.bottom then
    .error offsetErrorMessage
  else
    .ok ()

/-- Host-supplied geometry for the `Context` built by the constructor:
document flag, rect, client dimensions, and the scroll offsets current at
construction time. -/
structure ContextGeomIn where
  isDoc : Bool
  rectTop : ℚ
  rectLeft : ℚ
  clientHeight : ℚ
  clientWidth : ℚ
  scrollTop : ℚ
  scrollLeft : ℚ
deriving Repr, DecidableEq

/-- The `Context` constructor (`Context.ts`, lines 62-65): stores the
node kind and runs `populateScroll` once against the initial snapshot. -/
def newContext (g : ContextGeomIn) : ContextState :=
  { isDoc := g.isDoc
    rectTop := g.rectTop
    rectLeft := g.rectLeft
    clientHeight := g.clientHeight
    clientWidth := g.clientWidth
    scroll := populateScroll initialScroll g.scrollTop g.scrollLeft }

/-- State of a constructed `InView` instance.  `listening` records that
`context.listen` ran (constructor line 59). -/
structure InViewState where
  options : Options
  subject : SubjectGeom
  context : ContextState
  listening : Bool

/-- The `InView` constructor (`src/index.ts`, lines 39-60): merge
defaults, validate, build `Subject` and `Context`, then start listening.
An `.error` means the `TypeError` escaped before `listen` was reached. -/
def construct (element : SubjectGeom) (g : ContextGeomIn)
    (optsIn : IOptionsIn) : Except String InViewState :=
  let options := mergeDefaults optsIn
  match validateOptions options with
  | .error e => .error e
  | .ok _ =>
      .ok { options := options
            subject := element
            context := newContext g
            listening := true }

/-- Whether a construction attempt left a listener attached: only a
successfully constructed instance can have called `listen`. -/
def listenerAttached : Except String InViewState → Bool
  | .ok st => st.listening
  | .error _ => false

/-- Whether construction succeeded (no throw). -/
def constructOk : Except String InViewState → Bool
  | .ok _ => true
  | .error _ => false

/-- `InView.recalculate` (`src/index.ts`, lines 67-69): calls
`eventsHandler` directly; the state (in particular the scroll snapshot)
is left untouched. -/
def recalculate (st : InViewState) : InViewState × Option IVisibility :=
  (st, eventsHandler st.options st.context st.subject)

/-- `Context.listener` on a real event (`Context.ts`, lines 208-216)
followed by the registered handler `InView.eventsHandler`: first refresh
the scroll snapshot via `populateScroll`, then evaluate. -/
def contextListener (st : InViewState) (scrollTop scrollLeft : ℚ) :
    InViewState × Option IVisibility :=
  let context := { st.context with
    scroll := populateScroll st.context.scroll scrollTop scrollLeft }
  let st2 := { st with context := context }
  (st2, eventsHandler st2.options st2.context st2.subject)

/-! ## Spec-side definitions

These follow the wording of the specification (section 4.3 steps 4-6 and
section 3) and are compared against the embedded code. -/

/-- Spec: `topVisible = childTop ∈ [parentTop, parentBottom)`. -/
def specTopVisible (pT pB ct : ℚ) : Bool := decide (pT ≤ ct ∧ ct < pB)

/-- Spec: `bottomVisible = childBottom ∈ [parentTop, parentBottom)`. -/
def specBottomVisible (pT pB cb : ℚ) : Bool := decide (pT ≤ cb ∧ cb < pB)

/-- Spec: `leftVisible = childLeft ∈ [parentLeft, parentRight)`. -/
def specLeftVisible (pL pR cl : ℚ) : Bool := decide (pL ≤ cl ∧ cl < pR)

/-- Spec: `rightVisible = childRight ∈ [parentLeft, parentRight]`
(inclusive upper bound). -/
def specRightVisible (pL pR cr : ℚ) : Bool := decide (pL ≤ cr ∧ cr ≤ pR)

/-- Spec: `overflowY = childTop ≤ parentTop AND childBottom ≥ parentBottom`. -/
def specOverflowY (pT pB ct cb : ℚ) : Bool := decide (ct ≤ pT ∧ cb ≥ pB)

/-- Spec: `overflowX = childLeft ≤ parentLeft AND childRight ≥ parentRight`. -/
def specOverflowX (pL pR cl cr : ℚ) : Bool := decide (cl ≤ pL ∧ cr ≥ pR)

/-- Spec direction invariant (section 3 / section 8): each direction flag
holds exactly when the corresponding diff has the matching sign. -/
def dirConsistent (s : ScrollData) : Prop :=
  (s.dirY = DIR_NONE ↔ s.topDiff = 0)
  ∧ (s.dirY = DIR_DOWN ↔ 0 < s.topDiff)
  ∧ (s.dirY = DIR_UP ↔ s.topDiff < 0)
  ∧ (s.dirX = DIR_NONE ↔ s.leftDiff = 0)
  ∧ (s.dirX = DIR_RIGHT ↔ 0 < s.leftDiff)
  ∧ (s.dirX = DIR_LEFT ↔ s.leftDiff < 0)

/-- Spec wording "string ending in `%`": the last character is `'%'`
(`false` on the empty string). -/
def endsInPercent (s : String) : Bool :=
  match s.data.getLast? with
  | some c => decide (c = '%')
  | none => false

/-! ## Concrete fixtures for witnesses and counterexamples -/

/-- Options as merged by the constructor when the user passes `{}`. -/
def optsPlain : Options :=
  ⟨["DOMContentLoaded", "resize"], emptyOffset, .parent, none⟩

/-- Default options with a given offset object. -/
def optsWith (off : IOffset) : Options :=
  ⟨["DOMContentLoaded", "resize"], off, .parent, none⟩

/-- An offset object configuring only the `top` edge. -/
def offTop (t : TOffset) : IOffset := ⟨some t, none, none, none⟩

/-- A document context with a 500 by 500 client box and no scrolling yet. -/
def ctx500 : ContextState := ⟨true, 0, 0, 500, 500, initialScroll⟩

/-- A subject box fully inside `ctx500`. -/
def subjInside : SubjectGeom := ⟨100, 100, 200, 200, 100, 100⟩

/-- A subject whose measured edges are the non-integer value `1/2`. -/
def subjHalf : SubjectGeom := ⟨1/2, 1/2, 1/2, 1/2, 0, 0⟩

/-- A subject strictly straddling `ctx500` on both axes. -/
def subjOverflow : SubjectGeom := ⟨-50, -50, 600, 600, 650, 650⟩

/-- A subject touching the right boundary of `ctx500` exactly. -/
def subjRightEdge : SubjectGeom := ⟨100, 100, 500, 200, 100, 400⟩

/-- Options with `scrollAmount = {top: 5, left: 5}`. -/
def optsGate : Options :=
  ⟨["DOMContentLoaded", "resize"], emptyOffset, .parent, some ⟨some 5, some 5⟩⟩

/-- A context whose last event left a vertical scroll delta of `3`. -/
def ctxGate : ContextState := ⟨true, 0, 0, 500, 500, ⟨10, 0, 3, 0, DIR_DOWN, DIR_NONE⟩⟩

/-- An engine state ready for `recalculate` after a small scroll. -/
def stGate : InViewState := ⟨optsGate, subjInside, ctxGate, true⟩

/-- Options configuring `offset = {top: "50%"}` in `parent` mode. -/
def opts50pct : Options :=
  ⟨["DOMContentLoaded", "resize"], offTop (.str "50%"), .parent, none⟩

/-- A document context with client height 400. -/
def ctx400 : ContextState := ⟨true, 0, 0, 400, 500, initialScroll⟩

/-- A subject with fractional measured top edge `10.3`. -/
def subjFrac : SubjectGeom := ⟨103/10, 0, 0, 0, 0, 0⟩

/-- Host geometry for constructing a context in construction tests. -/
def geomIn : ContextGeomIn := ⟨true, 0, 0, 500, 500, 0, 0⟩

/-- An options bag whose `offset.top` is the invalid string `"abc"`. -/
def optsInBad : IOptionsIn := ⟨none, some (offTop (.str "abc")), none, none⟩

/-- An options bag whose `offset.top` is the empty string. -/
def optsInEmptyStr : IOptionsIn := ⟨none, some (offTop (.str "")), none, none⟩

/-- An options bag with one valid offset of each kind. -/
def optsInValid : IOptionsIn :=
  ⟨none, some ⟨some (.num 10), some (.str "50%"), some (.fn fun _ _ => 7), none⟩,
    none, none⟩


/-! ## Helper lemmas: branch behaviour of `getSubjectPosition` -/

/-- Bridge: the embedded `Math.floor` agrees with Mathlib's `Int.floor`. -/
theorem qfloor_eq (q : ℚ) : qfloor q = ((⌊q⌋ : ℤ) : ℚ) := rfl

/-- No offset configured: the raw edge is returned unchanged. -/
theorem getSubjectPosition_none (opts : Options) (subject : SubjectGeom)
    (context : ContextState) (position : TPosition)
    (h : opts.offset.get position = none) :
    getSubjectPosition opts subject context position = some (subject.edge position) := by
  simp only [getSubjectPosition, h]

/-- A nonzero numeric offset: the edge is `floor(raw + offset * sign)`. -/
theorem getSubjectPosition_num (opts : Options) (subject : SubjectGeom)
    (context : ContextState) (position : TPosition) (n : ℚ)
    (h : opts.offset.get position = some (.num n)) (hn : n ≠ 0) :
    getSubjectPosition opts subject context position
      = some (qfloor (subject.edge position
          + n * (if position = .top ∨ position = .left then 1 else -1))) := by
  simp only [getSubjectPosition, h, if_neg hn]

/-- A zero numeric offset is falsy: the raw edge is returned unchanged. -/
theorem getSubjectPosition_num_zero (opts : Options) (subject : SubjectGeom)
    (context : ContextState) (position : TPosition)
    (h : opts.offset.get position = some (.num 0)) :
    getSubjectPosition opts subject context position = some (subject.edge position) := by
  simp only [getSubjectPosition, h, if_true, if_pos trivial]

/-- A parsable nonempty string offset: the percentage branch. -/
theorem getSubjectPosition_str (opts : Options) (subject : SubjectGeom)
    (context : ContextState) (position : TPosition) (s : String) (p : ℤ)
    (h : opts.offset.get position = some (.str s)) (hs : s ≠ "")
    (hp : parseIntJS s = some p) :
    getSubjectPosition opts subject context position
      = some (qfloor (subject.edge position
          + (if opts.offsetPercentageMode = .parent then
              (if position = .top ∨ position = .bottom then context.innerHeight
                else context.innerWidth)
            else
              (if position = .top ∨ position = .bottom then subject.height
                else subject.width)) / 100
            * ((p : ℚ) * (if position = .top ∨ position = .left then 1 else -1)))) := by
  simp only [getSubjectPosition, h, if_neg hs, hp]


/-- **C4** (corrected: the claim fails for the numeric offset `0`, which is
falsy and takes the no-offset early return, skipping the floor).  For every
nonzero numeric offset `o`, the effective edge is `floor(raw + o)` for
`top`/`left` and `floor(raw - o)` for `bottom`/`right`. -/
theorem numeric_offset_sign (opts : Options) (subject : SubjectGeom)
    (context : ContextState) (position : TPosition) (o : ℚ) (ho : o ≠ 0)
    (hoff : opts.offset.get position = some (.num o)) :
    ((position = .top ∨ position = .left) →
      getSubjectPosition opts subject context position
        = some (qfloor (subject.edge position + o)))
    ∧ ((position = .bottom ∨ position = .right) →
      getSubjectPosition opts subject context position
        = some (qfloor (subject.edge position - o))) := by
  rw [getSubjectPosition_num opts subject context position o hoff ho]
  constructor
  · intro hp
    rw [if_pos hp, mul_one]
  · intro hp
    have hp' : ¬(position = TPosition.top ∨ position = TPosition.left) := by
      rcases hp with h1 | h1 <;> subst h1 <;> simp
    rw [if_neg hp']
    have harg : subject.edge position + o * (-1) = subject.edge position - o := by ring
    rw [harg]

/-- **C4 counterexample**: with numeric offset `0` on `top` and raw edge
`1/2`, the code returns `1/2`, not `floor(1/2 + 0) = 0` as the claim
demands for "every numeric offset". -/
theorem numeric_offset_sign_cex :
    getSubjectPosition (optsWith (offTop (.num 0))) subjHalf ctx500 .top = some (1/2)
    ∧ some ((1:ℚ)/2) ≠ some (qfloor (1/2 + 0)) := by
  constructor
  · exact getSubjectPosition_num_zero (optsWith (offTop (.num 0))) subjHalf ctx500 .top rfl
  · have h0 : (⌊((1:ℚ)/2 + 0)⌋ : ℤ) = 0 := by
      rw [Int.floor_eq_iff]
      norm_num
    simp only [ne_eq, Option.some.injEq, qfloor_eq, h0]
    norm_num

/-- **C4 witness**: offset `7` on the `top` edge of a raw edge `1/2`. -/
theorem numeric_offset_sign_witness :
    ((TPosition.top = TPosition.top ∨ TPosition.top = TPosition.left) →
      getSubjectPosition (optsWith (offTop (.num 7))) subjHalf ctx500 .top
        = some (qfloor (subjHalf.edge .top + 7)))
    ∧ ((TPosition.top = TPosition.bottom ∨ TPosition.top = TPosition.right) →
      getSubjectPosition (optsWith (offTop (.num 7))) subjHalf ctx500 .top
        = some (qfloor (subjHalf.edge .top - 7))) :=
  numeric_offset_sign (optsWith (offTop (.num 7))) subjHalf ctx500 .top 7
    (by norm_num) rfl

/-- **C5** (corrected: the no-offset branch returns the raw measured edge
without flooring; only the offset branches floor). -/
theorem no_offset_unfloored (opts : Options) (subject : SubjectGeom)
    (context : ContextState) (position : TPosition)
    (h : opts.offset.get position = none) :
    getSubjectPosition opts subject context position = some (subject.edge position) :=
  getSubjectPosition_none opts subject context position h

/-- **C5 counterexample**: with no offset and raw edge `1/2` the resolution
returns `1/2`, which differs from the claimed `floor(1/2) = 0`. -/
theorem no_offset_unfloored_cex :
    getSubjectPosition optsPlain subjHalf ctx500 .top = some (1/2)
    ∧ some ((1:ℚ)/2) ≠ some (qfloor (1/2)) := by
  constructor
  · exact getSubjectPosition_none optsPlain subjHalf ctx500 .top rfl
  · have h0 : (⌊((1:ℚ)/2)⌋ : ℤ) = 0 := by
      rw [Int.floor_eq_iff]
      norm_num
    simp only [ne_eq, Option.some.injEq, qfloor_eq, h0]
    norm_num

/-- **C5 witness**: the no-offset branch at a concrete non-integer edge. -/
theorem no_offset_unfloored_witness :
    getSubjectPosition optsPlain subjHalf ctx500 .top = some (subjHalf.edge .top) :=
  no_offset_unfloored optsPlain subjHalf ctx500 .top rfl

/-- **C6** (corrected: a `"0%"` offset returns `floor(raw)` while no offset
returns the raw value unfloored, so they agree only when the raw edge is an
integer). -/
theorem zero_percent_offset (opts opts2 : Options) (subject : SubjectGeom)
    (context : ContextState) (position : TPosition)
    (hoff : opts.offset.get position = some (.str "0%"))
    (hoff2 : opts2.offset.get position = none) :
    getSubjectPosition opts subject context position
      = some (qfloor (subject.edge position))
    ∧ (qfloor (subject.edge position) = subject.edge position →
        getSubjectPosition opts subject context position
          = getSubjectPosition opts2 subject context position) := by
  have h1 : getSubjectPosition opts subject context position
      = some (qfloor (subject.edge position)) := by
    rw [getSubjectPosition_str opts subject context position "0%" 0 hoff (by decide) rfl]
    simp only [Int.cast_zero, zero_mul, mul_zero, add_zero]
  refine ⟨h1, fun hint => ?_⟩
  rw [h1, getSubjectPosition_none opts2 subject context position hoff2, hint]

/-- **C6 counterexample**: at raw edge `1/2`, `"0%"` gives `0` but no
offset gives `1/2`. -/
theorem zero_percent_offset_cex :
    getSubjectPosition (optsWith (offTop (.str "0%"))) subjHalf ctx500 .top
      ≠ getSubjectPosition optsPlain subjHalf ctx500 .top := by
  rw [getSubjectPosition_str (optsWith (offTop (.str "0%"))) subjHalf ctx500 .top
      "0%" 0 rfl (by decide) rfl,
    getSubjectPosition_none optsPlain subjHalf ctx500 .top rfl]
  simp only [Int.cast_zero, zero_mul, mul_zero, add_zero, ne_eq, Option.some.injEq, qfloor_eq]
  have h0 : (⌊subjHalf.edge TPosition.top⌋ : ℤ) = 0 := by
    rw [show subjHalf.edge TPosition.top = (1:ℚ)/2 from rfl, Int.floor_eq_iff]
    norm_num
  rw [h0, show subjHalf.edge TPosition.top = (1:ℚ)/2 from rfl]
  norm_num

/-- **C6 witness**: `"0%"` on an integer raw edge agrees with no offset. -/
theorem zero_percent_offset_witness :
    (getSubjectPosition (optsWith (offTop (.str "0%"))) subjInside ctx500 .top
      = some (qfloor (subjInside.edge .top)))
    ∧ (qfloor (subjInside.edge .top) = subjInside.edge .top →
        getSubjectPosition (optsWith (offTop (.str "0%"))) subjInside ctx500 .top
          = getSubjectPosition optsPlain subjInside ctx500 .top) :=
  zero_percent_offset (optsWith (offTop (.str "0%"))) optsPlain subjInside ctx500 .top
    rfl rfl

/-- **C7** (confirmed).  A parsable nonempty percentage-string offset yields
`floor(raw + dimension/100 * percent * sign)`, where the dimension is the
context's client height/width in `parent` mode (height for `top`/`bottom`,
width for `left`/`right`) and the subject's own height/width in `self`
mode. -/
theorem percent_offset (opts : Options) (subject : SubjectGeom)
    (context : ContextState) (position : TPosition) (s : String) (p : ℤ)
    (hoff : opts.offset.get position = some (.str s)) (hs : s ≠ "")
    (hp : parseIntJS s = some p) :
    getSubjectPosition opts subject context position
      = some (qfloor (subject.edge position
          + (if opts.offsetPercentageMode = .parent then
              (if position = .top ∨ position = .bottom then context.innerHeight
                else context.innerWidth)
            else
              (if position = .top ∨ position = .bottom then subject.height
                else subject.width)) / 100
            * (p : ℚ)
            * (if position = .top ∨ position = .left then 1 else -1))) := by
  rw [getSubjectPosition_str opts subject context position s p hoff hs hp]
  refine congrArg some (congrArg qfloor ?_)
  ring

/-- **C7 witness** (spec Scenario D): `offset={top:"50%"}`, `parent` mode,
context height 400, raw top `10.3` gives `floor(10.3 + 200) = 210`. -/
theorem percent_offset_witness :
    getSubjectPosition opts50pct subjFrac ctx400 .top = some 210 := by
  rw [percent_offset opts50pct subjFrac ctx400 .top "50%" 50 rfl (by decide) rfl]
  have h210 : (⌊(103/10 + 400 / 100 * 50 * 1 : ℚ)⌋ : ℤ) = 210 := by
    rw [Int.floor_eq_iff]
    norm_num
  simp only [opts50pct, ctx400, subjFrac, SubjectGeom.edge, ContextState.innerHeight]
  norm_num [qfloor_eq, h210]


/-- **C1** (confirmed).  Whenever an evaluation passes the noise gate and
the four effective edges are actual numbers, the reported `visible` equals
the spec's formula
`(topVisible OR bottomVisible OR overflowY) AND (leftVisible OR rightVisible OR overflowX)`
with the edge predicates as specified; moreover `childRight = parentRight`
gives `rightVisible` (inclusive bound, provided the client width is
nonnegative) while `childLeft = parentRight` falsifies `leftVisible`. -/
theorem visible_formula (opts : Options) (context : ContextState) (subject : SubjectGeom)
    (v : IVisibility) (ct cl cb cr : ℚ)
    (hct : getSubjectPosition opts subject context .top = some ct)
    (hcl : getSubjectPosition opts subject context .left = some cl)
    (hcb : getSubjectPosition opts subject context .bottom = some cb)
    (hcr : getSubjectPosition opts subject context .right = some cr)
    (hv : eventsHandler opts context subject = some v) :
    (v.visible =
      ((specTopVisible context.top (context.top + context.innerHeight) ct
        || specBottomVisible context.top (context.top + context.innerHeight) cb
        || specOverflowY context.top (context.top + context.innerHeight) ct cb)
       &&
       (specLeftVisible context.left (context.left + context.innerWidth) cl
        || specRightVisible context.left (context.left + context.innerWidth) cr
        || specOverflowX context.left (context.left + context.innerWidth) cl cr)))
    ∧ (0 ≤ context.innerWidth → cr = context.left + context.innerWidth →
        specRightVisible context.left (context.left + context.innerWidth) cr = true)
    ∧ (cl = context.left + context.innerWidth →
        specLeftVisible context.left (context.left + context.innerWidth) cl = false) := by
  refine ⟨?_, ?_, ?_⟩
  · simp only [eventsHandler, hct, hcl, hcb, hcr] at hv
    split at hv
    · exact absurd hv (by simp)
    · injection hv with hv
      subst hv
      simp only [cmpGE, cmpLE, cmpLT, specTopVisible, specBottomVisible, specLeftVisible,
        specRightVisible, specOverflowY, specOverflowX]
      simp only [Bool.decide_and, ge_iff_le]
      ac_rfl
  · intro hw he
    subst he
    simp only [specRightVisible, decide_eq_true_eq]
    exact ⟨le_add_of_nonneg_right hw, le_refl _⟩
  · intro he
    subst he
    simp only [specLeftVisible, decide_eq_false_iff_not, not_and, not_lt]
    intro _
    exact le_refl _


/-- **C1 witness**: a subject touching the right boundary of a 500 by 500
document context exactly. -/
theorem visible_formula_witness :
    ((IVisibility.visible ⟨true, true, true, true, true⟩ =
      ((specTopVisible ctx500.top (ctx500.top + ctx500.innerHeight) 100
        || specBottomVisible ctx500.top (ctx500.top + ctx500.innerHeight) 200
        || specOverflowY ctx500.top (ctx500.top + ctx500.innerHeight) 100 200)
       &&
       (specLeftVisible ctx500.left (ctx500.left + ctx500.innerWidth) 100
        || specRightVisible ctx500.left (ctx500.left + ctx500.innerWidth) 500
        || specOverflowX ctx500.left (ctx500.left + ctx500.innerWidth) 100 500)))
    ∧ (0 ≤ ctx500.innerWidth → (500:ℚ) = ctx500.left + ctx500.innerWidth →
        specRightVisible ctx500.left (ctx500.left + ctx500.innerWidth) 500 = true)
    ∧ ((100:ℚ) = ctx500.left + ctx500.innerWidth →
        specLeftVisible ctx500.left (ctx500.left + ctx500.innerWidth) 100 = false)) :=
  visible_formula optsPlain ctx500 subjRightEdge ⟨true, true, true, true, true⟩
    100 100 200 500
    (getSubjectPosition_none optsPlain subjRightEdge ctx500 .top rfl)
    (getSubjectPosition_none optsPlain subjRightEdge ctx500 .left rfl)
    (getSubjectPosition_none optsPlain subjRightEdge ctx500 .bottom rfl)
    (getSubjectPosition_none optsPlain subjRightEdge ctx500 .right rfl)
    (by
      simp only [eventsHandler, getSubjectPosition, optsPlain, emptyOffset, IOffset.get,
        ctx500, subjRightEdge, SubjectGeom.edge, ContextState.top, ContextState.left,
        ContextState.innerHeight, ContextState.innerWidth, ContextState.scrollTopDiff,
        ContextState.scrollLeftDiff, initialScroll, qabs, cmpGE, cmpLE, cmpLT, cmpLEOpt]
      norm_num)

/-- **C2** (confirmed).  A subject strictly straddling the context on both
axes is reported `visible = true` while all four quadrant flags are
`false`. -/
theorem overflow_quadrants (opts : Options) (context : ContextState) (subject : SubjectGeom)
    (v : IVisibility) (ct cl cb cr : ℚ)
    (hct : getSubjectPosition opts subject context .top = some ct)
    (hcl : getSubjectPosition opts subject context .left = some cl)
    (hcb : getSubjectPosition opts subject context .bottom = some cb)
    (hcr : getSubjectPosition opts subject context .right = some cr)
    (hv : eventsHandler opts context subject = some v)
    (h1 : ct < context.top)
    (h2 : context.top + context.innerHeight < cb)
    (h3 : cl < context.left)
    (h4 : context.left + context.innerWidth < cr) :
    v.visible = true ∧ v.topLeft = false ∧ v.topRight = false
      ∧ v.bottomLeft = false ∧ v.bottomRight = false := by
  simp only [eventsHandler, hct, hcl, hcb, hcr] at hv
  split at hv
  · exact absurd hv (by simp)
  · injection hv with hv
    subst hv
    simp only [cmpGE, cmpLE, cmpLT, ge_iff_le]
    refine ⟨?_, ?_, ?_, ?_, ?_⟩ <;>
      simp [not_le.mpr h1, not_le.mpr h3, not_le.mpr h4, not_lt.mpr h2.le,
        h1.le, h2.le, h3.le, h4.le]

/-- **C2 witness** (spec Scenario B, both axes): subject `(-50, -50, 600, 600)`
against the 500 by 500 context. -/
theorem overflow_quadrants_witness :
    (⟨true, false, false, false, false⟩ : IVisibility).visible = true
    ∧ (⟨true, false, false, false, false⟩ : IVisibility).topLeft = false
    ∧ (⟨true, false, false, false, false⟩ : IVisibility).topRight = false
    ∧ (⟨true, false, false, false, false⟩ : IVisibility).bottomLeft = false
    ∧ (⟨true, false, false, false, false⟩ : IVisibility).bottomRight = false :=
  overflow_quadrants optsPlain ctx500 subjOverflow ⟨true, false, false, false, false⟩
    (-50) (-50) 600 600
    (getSubjectPosition_none optsPlain subjOverflow ctx500 .top rfl)
    (getSubjectPosition_none optsPlain subjOverflow ctx500 .left rfl)
    (getSubjectPosition_none optsPlain subjOverflow ctx500 .bottom rfl)
    (getSubjectPosition_none optsPlain subjOverflow ctx500 .right rfl)
    (by
      simp only [eventsHandler, getSubjectPosition, optsPlain, emptyOffset, IOffset.get,
        ctx500, subjOverflow, SubjectGeom.edge, ContextState.top, ContextState.left,
        ContextState.innerHeight, ContextState.innerWidth, ContextState.scrollTopDiff,
        ContextState.scrollLeftDiff, initialScroll, qabs, cmpGE, cmpLE, cmpLT, cmpLEOpt]
      norm_num)
    (by norm_num [ctx500, ContextState.top])
    (by norm_num [ctx500, ContextState.top, ContextState.innerHeight])
    (by norm_num [ctx500, ContextState.left])
    (by norm_num [ctx500, ContextState.left, ContextState.innerWidth])


/-- Gate characterization: with both `scrollAmount` thresholds supplied, the
evaluation aborts (returns `none`) exactly when one axis has a nonzero
delta within its threshold. -/
theorem eventsHandler_none_iff (opts : Options) (context : ContextState)
    (subject : SubjectGeom) (amtT amtL : ℚ)
    (hsa : opts.scrollAmount = some ⟨some amtT, some amtL⟩) :
    eventsHandler opts context subject = none
      ↔ ((0 < qabs context.scrollTopDiff ∧ qabs context.scrollTopDiff ≤ amtT)
         ∨ (0 < qabs context.scrollLeftDiff ∧ qabs context.scrollLeftDiff ≤ amtL)) := by
  simp only [eventsHandler, hsa, Option.getD_some, cmpLEOpt]
  split
  · rename_i h
    simp only [gt_iff_lt, Bool.or_eq_true, Bool.and_eq_true, decide_eq_true_eq] at h
    exact iff_of_true rfl h
  · rename_i h
    simp only [gt_iff_lt, Bool.or_eq_true, Bool.and_eq_true, decide_eq_true_eq] at h
    exact iff_of_false (by simp) h

/-- **C3** (confirmed).  With `scrollAmount = {top: amtT, left: amtL}`, a
nonzero delta within threshold on either axis suppresses the evaluation
(no callback); otherwise the callback fires exactly once (the handler
produces exactly one visibility record). -/
theorem noise_gate (opts : Options) (context : ContextState)
    (subject : SubjectGeom) (amtT amtL : ℚ)
    (hsa : opts.scrollAmount = some ⟨some amtT, some amtL⟩) :
    (((0 < qabs context.scrollTopDiff ∧ qabs context.scrollTopDiff ≤ amtT)
       ∨ (0 < qabs context.scrollLeftDiff ∧ qabs context.scrollLeftDiff ≤ amtL)) →
      eventsHandler opts context subject = none)
    ∧ (¬((0 < qabs context.scrollTopDiff ∧ qabs context.scrollTopDiff ≤ amtT)
         ∨ (0 < qabs context.scrollLeftDiff ∧ qabs context.scrollLeftDiff ≤ amtL)) →
      ∃ v, eventsHandler opts context subject = some v) := by
  have h := eventsHandler_none_iff opts context subject amtT amtL hsa
  constructor
  · exact h.mpr
  · intro hn
    rcases he : eventsHandler opts context subject with _ | v
    · exact absurd (h.mp he) hn
    · exact ⟨v, rfl⟩

/-- **C3 witness**: threshold 5 on both axes; a vertical delta of 3 (with
zero horizontal delta) suppresses the callback, a delta of 7 does not. -/
theorem noise_gate_witness :
    eventsHandler optsGate ctxGate subjInside = none ∧
    ∃ v, eventsHandler optsGate
      { ctxGate with scroll := { ctxGate.scroll with topDiff := 7 } } subjInside = some v :=
  ⟨(noise_gate optsGate ctxGate subjInside 5 5 rfl).1
      (Or.inl (by norm_num [ctxGate, ContextState.scrollTopDiff, qabs])),
   (noise_gate optsGate
      { ctxGate with scroll := { ctxGate.scroll with topDiff := 7 } } subjInside 5 5 rfl).2
      (by norm_num [ctxGate, ContextState.scrollTopDiff, ContextState.scrollLeftDiff, qabs])⟩

/-- **C10** (confirmed).  `recalculate` evaluates without refreshing the
scroll snapshot (the state is unchanged), so when the last event left a
nonzero within-threshold delta on either axis, the noise gate suppresses
the callback. -/
theorem recalculate_suppressed (st : InViewState) (amtT amtL : ℚ)
    (hsa : st.options.scrollAmount = some ⟨some amtT, some amtL⟩)
    (hgate : (0 < qabs st.context.scrollTopDiff ∧ qabs st.context.scrollTopDiff ≤ amtT)
       ∨ (0 < qabs st.context.scrollLeftDiff ∧ qabs st.context.scrollLeftDiff ≤ amtL)) :
    (recalculate st).1 = st ∧ (recalculate st).2 = none :=
  ⟨rfl, (eventsHandler_none_iff st.options st.context st.subject amtT amtL hsa).mpr hgate⟩

/-- **C10 witness**: after an event leaving `topDiff = 3` under threshold 5,
`recalculate` changes nothing and invokes no callback. -/
theorem recalculate_suppressed_witness :
    (recalculate stGate).1 = stGate ∧ (recalculate stGate).2 = none :=
  recalculate_suppressed stGate 5 5 rfl
    (Or.inl (by norm_num [stGate, ctxGate, ContextState.scrollTopDiff, qabs]))


/-- The Y-axis direction computed by `populateScroll` is consistent with
the Y-axis delta. -/
theorem dirY_cases (cur prev : ℚ) :
    ((if cur = prev then DIR_NONE else if cur > prev then DIR_DOWN else DIR_UP) = DIR_NONE
      ↔ cur - prev = 0)
    ∧ ((if cur = prev then DIR_NONE else if cur > prev then DIR_DOWN else DIR_UP) = DIR_DOWN
      ↔ 0 < cur - prev)
    ∧ ((if cur = prev then DIR_NONE else if cur > prev then DIR_DOWN else DIR_UP) = DIR_UP
      ↔ cur - prev < 0) := by
  rcases lt_trichotomy cur prev with h | h | h
  · rw [if_neg h.ne, if_neg (by simpa using h.asymm)]
    simp [DIR_NONE, DIR_UP, DIR_DOWN, sub_eq_zero, sub_pos, sub_neg, h, h.ne, h.asymm]
  · subst h
    simp [DIR_NONE, DIR_UP, DIR_DOWN]
  · rw [if_neg h.ne', if_pos h]
    simp [DIR_NONE, DIR_UP, DIR_DOWN, sub_eq_zero, sub_pos, sub_neg, h, h.ne', h.asymm]

/-- The X-axis direction computed by `populateScroll` is consistent with
the X-axis delta. -/
theorem dirX_cases (cur prev : ℚ) :
    ((if cur = prev then DIR_NONE else if cur > prev then DIR_RIGHT else DIR_LEFT) = DIR_NONE
      ↔ cur - prev = 0)
    ∧ ((if cur = prev then DIR_NONE else if cur > prev then DIR_RIGHT else DIR_LEFT) = DIR_RIGHT
      ↔ 0 < cur - prev)
    ∧ ((if cur = prev then DIR_NONE else if cur > prev then DIR_RIGHT else DIR_LEFT) = DIR_LEFT
      ↔ cur - prev < 0) := by
  rcases lt_trichotomy cur prev with h | h | h
  · rw [if_neg h.ne, if_neg (by simpa using h.asymm)]
    simp [DIR_NONE, DIR_LEFT, DIR_RIGHT, sub_eq_zero, sub_pos, sub_neg, h, h.ne, h.asymm]
  · subst h
    simp [DIR_NONE, DIR_LEFT, DIR_RIGHT]
  · rw [if_neg h.ne', if_pos h]
    simp [DIR_NONE, DIR_LEFT, DIR_RIGHT, sub_eq_zero, sub_pos, sub_neg, h, h.ne', h.asymm]

/-- Every snapshot `populateScroll` produces satisfies the direction
invariant. -/
theorem populateScroll_dirConsistent (s : ScrollData) (st sl : ℚ) :
    dirConsistent (populateScroll s st sl) := by
  obtain ⟨hy1, hy2, hy3⟩ := dirY_cases st s.top
  obtain ⟨hx1, hx2, hx3⟩ := dirX_cases sl s.left
  exact ⟨hy1, hy2, hy3, hx1, hx2, hx3⟩

/-- **C8** (confirmed).  After every run of the scroll-snapshot update —
the general `populateScroll` step, the one at `Context` construction, and
the one a real event performs before evaluating — the direction fields
match the sign of the deltas. -/
theorem direction_invariant :
    (∀ (s : ScrollData) (st sl : ℚ), dirConsistent (populateScroll s st sl))
    ∧ (∀ g : ContextGeomIn, dirConsistent (newContext g).scroll)
    ∧ (∀ (st : InViewState) (a b : ℚ),
        dirConsistent ((contextListener st a b).1.context.scroll)) :=
  ⟨fun s st sl => populateScroll_dirConsistent s st sl,
   fun g => populateScroll_dirConsistent initialScroll g.scrollTop g.scrollLeft,
   fun st a b => populateScroll_dirConsistent st.context.scroll a b⟩


/-! ## String validation lemmas for C9 -/

/-- A string other than `""` has a nonempty character list. -/
theorem data_ne_nil (s : String) (h : s ≠ "") : s.data ≠ [] := by
  cases s with
  | mk cs =>
    intro hc
    simp only at hc
    subst hc
    exact h rfl

/-- When the last character is `'%'`, `lastIndexOf` finds it at
`length - 1`. -/
theorem jsLastIndexOf_of_ends (s : String)
    (hlast : s.data.getLast? = some '%') :
    jsLastIndexOf s '%' = (s.length : Int) - 1 := by
  have hrev : s.data.reverse.head? = some '%' := by
    rw [List.head?_reverse]
    exact hlast
  unfold jsLastIndexOf
  cases hr : s.data.reverse with
  | nil =>
    rw [hr] at hrev
    simp at hrev
  | cons a t =>
    rw [hr] at hrev
    simp only [List.head?_cons, Option.some.injEq] at hrev
    simp only [revFindIdx, if_pos hrev]
    simp

/-- When the last character is not `'%'` (and the string is nonempty),
`lastIndexOf` does not return `length - 1`. -/
theorem jsLastIndexOf_of_not_ends (s : String) (hne : s.data ≠ [])
    (hlast : s.data.getLast? = some '%' → False) :
    jsLastIndexOf s '%' ≠ (s.length : Int) - 1 := by
  have hlen : 1 ≤ s.length := List.length_pos.mpr hne
  unfold jsLastIndexOf
  cases hr : s.data.reverse with
  | nil =>
    have : s.data = [] := by simpa using congrArg List.reverse hr
    exact absurd this hne
  | cons a t =>
    have hrev : s.data.getLast? = some a := by
      rw [← List.head?_reverse, hr]
      rfl
    have ha : a ≠ '%' := fun hc => hlast (hc ▸ hrev)
    simp only [revFindIdx, if_neg ha]
    cases hf : revFindIdx '%' t with
    | none =>
      simp only [hf, Option.map_none']
      intro hc
      omega
    | some j =>
      simp only [hf, Option.map_some']
      intro hc
      omega

/-- A nonempty string not ending in `'%'` fails the validation check. -/
theorem invalid_of_not_ends (s : String) (hne : s ≠ "")
    (hend : endsInPercent s = false) :
    invalidStringEntry (some (.str s)) = true := by
  have hd : s.data ≠ [] := data_ne_nil s hne
  have hlast : s.data.getLast? = some '%' → False := by
    intro hc
    unfold endsInPercent at hend
    rw [hc] at hend
    simp at hend
  have hne' := jsLastIndexOf_of_not_ends s hd hlast
  simp [invalidStringEntry, hne']

/-- A string ending in `'%'` passes the validation check. -/
theorem valid_of_ends (s : String) (hend : endsInPercent s = true) :
    invalidStringEntry (some (.str s)) = false := by
  have hd : s.data ≠ [] := by
    intro hc
    unfold endsInPercent at hend
    rw [List.getLast?_eq_none_iff.mpr ?_] at hend
    · simp at hend
    · simp [hc]
  have hlast : s.data.getLast? = some '%' := by
    unfold endsInPercent at hend
    cases hc : s.data.getLast? with
    | none =>
      rw [hc] at hend
      simp at hend
    | some c =>
      rw [hc] at hend
      simp only [decide_eq_true_eq] at hend
      rw [hend]
  have heq := jsLastIndexOf_of_ends s hlast
  simp [invalidStringEntry, heq]

/-- The empty string passes the validation check (`lastIndexOf` gives `-1`
and `length - 1` is also `-1`). -/
theorem valid_empty : invalidStringEntry (some (.str "")) = false := by decide

/-- An invalid string entry at any edge makes `validateOptions` throw. -/
theorem validateOptions_error_of (opts : Options) (position : TPosition) (s : String)
    (hoff : opts.offset.get position = some (.str s)) (hne : s ≠ "")
    (hend : endsInPercent s = false) :
    validateOptions opts = .error offsetErrorMessage := by
  have hinv := invalid_of_not_ends s hne hend
  unfold validateOptions
  cases position <;> simp only [IOffset.get] at hoff <;> rw [hoff] <;> simp [hinv]

/-- With every offset entry valid, `validateOptions` succeeds. -/
theorem validateOptions_ok (opts : Options)
    (hvalid : ∀ (position : TPosition) (s : String),
      opts.offset.get position = some (.str s) → s = "" ∨ endsInPercent s = true) :
    validateOptions opts = .ok () := by
  have hall : ∀ position : TPosition,
      invalidStringEntry (opts.offset.get position) = false := by
    intro position
    cases hoc : opts.offset.get position with
    | none => rfl
    | some t =>
      cases t with
      | num n => rfl
      | fn f => rfl
      | str s =>
        rcases hvalid position s hoc with h | h
        · subst h
          exact valid_empty
        · exact valid_of_ends s h
  have h1 := hall .top
  have h2 := hall .left
  have h3 := hall .right
  have h4 := hall .bottom
  simp only [IOffset.get] at h1 h2 h3 h4
  unfold validateOptions
  rw [h1, h2, h3, h4]
  simp

/-- **C9** (corrected: the empty string does not end in `'%'` yet passes
validation, since `"".lastIndexOf('%') = -1 = "".length - 1`).  Every
*nonempty* string offset entry not ending in `'%'` fails construction with
the `TypeError`, before any listener is attached; and if every string
entry is empty or ends in `'%'` (numbers and functions are always
accepted), construction succeeds with the listener attached. -/
theorem offset_validation (element : SubjectGeom) (g : ContextGeomIn)
    (optsIn : IOptionsIn) :
    (∀ (position : TPosition) (s : String),
        (mergeDefaults optsIn).offset.get position = some (.str s) → s ≠ "" →
        endsInPercent s = false →
        construct element g optsIn = .error offsetErrorMessage
          ∧ listenerAttached (construct element g optsIn) = false)
    ∧ ((∀ (position : TPosition) (s : String),
          (mergeDefaults optsIn).offset.get position = some (.str s) →
          s = "" ∨ endsInPercent s = true) →
        ∃ st, construct element g optsIn = .ok st ∧ st.listening = true) := by
  constructor
  · intro position s hoff hne hend
    have herr := validateOptions_error_of (mergeDefaults optsIn) position s hoff hne hend
    simp [construct, herr, listenerAttached]
  · intro hvalid
    have hok := validateOptions_ok (mergeDefaults optsIn) hvalid
    simp only [construct, hok]
    exact ⟨_, rfl, rfl⟩

/-- **C9 counterexample**: the empty string is a string offset entry that
does not end in `'%'`, yet construction does not throw. -/
theorem offset_validation_cex :
    endsInPercent "" = false
    ∧ constructOk (construct subjInside geomIn optsInEmptyStr) = true := by
  constructor
  · rfl
  · rfl

/-- **C9 witness**: `"abc"` (nonempty, no `'%'`) fails construction with no
listener attached; an options bag with a numeric offset, a `"50%"` string
and a function offset constructs successfully and is listening. -/
theorem offset_validation_witness :
    (construct subjInside geomIn optsInBad = .error offsetErrorMessage
      ∧ listenerAttached (construct subjInside geomIn optsInBad) = false)
    ∧ ∃ st, construct subjInside geomIn optsInValid = .ok st ∧ st.listening = true :=
  ⟨(offset_validation subjInside geomIn optsInBad).1 .top "abc" rfl (by decide) (by decide),
   (offset_validation subjInside geomIn optsInValid).2 (by
      intro position s hoff
      cases position <;>
        simp only [mergeDefaults, optsInValid, IOffset.get, offTop, Option.getD_some,
          Option.some.injEq] at hoff
      · exact absurd hoff (by simp)
      · right
        rw [show s = "50%" by injection hoff with h; exact h.symm]
        decide
      · exact absurd hoff (by simp)
      · exact absurd hoff (by simp))⟩

end InViewLib
